import Mathlib

/-!
Verification development for the ai-agents-framework repository.

The definitions below are a shallow embedding of the TypeScript source:

* a JSON value model with the semantics of JSON.stringify, used for tool
  arguments, tool results and router/stage payloads;
* the memoized, traced tool wrapper wrapToolWithTracing and the run body of
  createAgent (src/unnamed/part_006), with the Langfuse trace backend
  modelled as a behaviour record saying which of its methods throw;
* the orchestrateAgents pipeline (src/packages/stream/agents/orchestrator.ts),
  with the five stage agents modelled as black-box functions from the message
  content they receive to the first tool result they produce.

Stateful TypeScript (the shared tool-result cache, the log of executeFn
invocations, the events successfully recorded by the trace backend) is
modelled by explicit state passing.  A JavaScript value that may be
undefined is modelled as an Option; a promise that may reject is modelled
as Except String.
-/

/-- JSON values as manipulated by the source (arguments and results of tools,
router payloads).  Object fields keep their enumeration order, exactly as
JavaScript objects do under JSON.stringify. -/
inductive Json where
  | null : Json
  | bool : Bool → Json
  | num : Int → Json
  | str : String → Json
  | arr : List Json → Json
  | obj : List (String × Json) → Json


/-- Escape of one character inside a JSON string literal, as JSON.stringify
performs it (quote and backslash; other characters of our model pass through). -/
def escapeChar (c : Char) : String :=
  if c = '"' then "\\\"" else if c = '\\' then "\\\\" else String.singleton c

/-- Escape of a whole string for inclusion in JSON.stringify output. -/
def escapeString (s : String) : String :=
  s.data.foldl (fun acc c => acc ++ escapeChar c) ""

/-- A JSON string literal: quotes around the escaped content. -/
def quoteString (s : String) : String :=
  "\"" ++ escapeString s ++ "\""

mutual

/-- JSON.stringify on our JSON model: field order is preserved, no
canonicalization of object keys happens (this mirrors the JavaScript
behaviour the cache key of wrapToolWithTracing relies on). -/
def Json.stringify : Json → String
  | .null => "null"
  | .bool true => "true"
  | .bool false => "false"
  | .num n => toString n
  | .str s => quoteString s
  | .arr xs => "[" ++ stringifyList xs ++ "]"
  | .obj fs => "\x7b" ++ stringifyFields fs ++ "\x7d"

/-- Comma-separated serialization of the elements of a JSON array. -/
def stringifyList : List Json → String
  | [] => ""
  | [x] => Json.stringify x
  | x :: y :: rest => Json.stringify x ++ "," ++ stringifyList (y :: rest)

/-- Comma-separated serialization of the fields of a JSON object. -/
def stringifyFields : List (String × Json) → String
  | [] => ""
  | [(k, v)] => quoteString k ++ ":" ++ Json.stringify v
  | (k, v) :: f :: rest =>
      quoteString k ++ ":" ++ Json.stringify v ++ "," ++ stringifyFields (f :: rest)

end

/-- JavaScript truthiness on our JSON model (undefined is handled by Option
at use sites): null, false, 0 and the empty string are falsy; every array
and object is truthy. -/
def jsTruthy : Json → Bool
  | .null => false
  | .bool b => b
  | .num n => n ≠ 0
  | .str s => s ≠ ""
  | .arr _ => true
  | .obj _ => true

/-- Property access obj.field on a JSON object: the value of the first field
with that name, none when the field is missing (JavaScript undefined) or the
value is not an object. -/
def getField (v : Json) (key : String) : Option Json :=
  match v with
  | .obj fs => (fs.find? (fun f => f.1 = key)).map (·.2)
  | _ => none

/-- Lookup in the tool-result cache (a JavaScript Map from string keys to
JSON values, modelled as an association list). -/
def lookupCache (cache : List (String × Json)) (k : String) : Option Json :=
  (cache.find? (fun e => e.1 = k)).map (·.2)

/-- Map.set: replace the value of an existing key, append a fresh key. -/
def setCache (cache : List (String × Json)) (k : String) (v : Json) :
    List (String × Json) :=
  match cache with
  | [] => [(k, v)]
  | e :: rest => if e.1 = k then (k, v) :: rest else e :: setCache rest k v

/-- The cache key computed by wrapToolWithTracing (part_006 line 90):
JSON.stringify of the object with fields toolName and args, in that order. -/
def cacheKey (toolName : String) (args : Json) : String :=
  Json.stringify (Json.obj [("toolName", Json.str toolName), ("args", args)])

/-- Behaviour of the Langfuse trace backend double: which of its methods
throw.  A throwing method records nothing and raises before anything after
it in the same closure runs. -/
structure TraceBehavior where
  traceThrows : Bool := false
  spanThrows : Bool := false
  generationThrows : Bool := false
  updateThrows : Bool := false
  flushThrows : Bool := false


/-- Events successfully recorded by the trace backend during a run. -/
inductive TraceEvent where
  | spanStart : String → Json → TraceEvent
  | spanComplete : String → Json → TraceEvent
  | spanError : String → String → TraceEvent
  | agentStart : String → TraceEvent
  | toolGeneration : String → TraceEvent
  | agentComplete : String → TraceEvent
  | traceUpdate : TraceEvent


/-- Mutable state threaded through one agent run: the shared tool-result
cache, the log of invocations of the underlying executeFn functions (in
order, with their arguments), and the events the trace backend recorded. -/
structure RunState where
  cache : List (String × Json) := []
  execLog : List (String × Json) := []
  events : List TraceEvent := []


/-- The execute function of the wrapped tool built by wrapToolWithTracing
(part_006 lines 85 to 148), for a tool whose underlying executeFn is f.
Mirrors the source step by step:

1. compute the cache key and return the cached value on a hit (no span, no
   execution);
2. otherwise run the tracing closure under safeTraceOperation: the closure
   opens a span, runs the underlying executeFn, caches and logs the result
   on success, logs an error span and rethrows on failure; any exception
   escaping the closure (from the backend or rethrown from the tool) is
   caught by safeTraceOperation, so the wrapped execute itself never
   rejects and falls back to returning the local variable result, which is
   undefined (none) unless the tool succeeded. -/
def wrappedExecute (tb : TraceBehavior) (toolName : String)
    (f : Json → Except String Json) (args : Json) (st : RunState) :
    Option Json × RunState :=
  let key := cacheKey toolName args
  match lookupCache st.cache key with
  | some v => (some v, st)
  | none =>
    if tb.spanThrows then
      -- trace.span throws before tool.execute is reached: the closure
      -- aborts, safeTraceOperation swallows, result stays undefined.
      (none, st)
    else
      let st1 := { st with
        events := st.events ++ [TraceEvent.spanStart toolName args],
        execLog := st.execLog ++ [(toolName, args)] }
      match f args with
      | .ok v =>
          (some v, { st1 with
            cache := setCache st1.cache key v,
            events := st1.events ++ [TraceEvent.spanComplete toolName v] })
      | .error e =>
          -- the error span is recorded, then the rethrown tool error is
          -- swallowed by safeTraceOperation; nothing is cached and the
          -- wrapped execute resolves with undefined.
          (none, { st1 with
            events := st1.events ++ [TraceEvent.spanError toolName e] })

/-- One tool invocation requested by the generation engine: name and the
JSON arguments object. -/
structure ToolCall where
  toolName : String
  args : Json

/-- What generateText resolves with, as far as createAgent consumes it:
the final text and the array of tool calls (name and args). -/
structure GenResult where
  text : String
  toolCalls : List ToolCall

/-- The generation engine as a black box: the sequence of tool executions
it performs through the tools it was handed, and the result it resolves
with.  Comparing two configurations of the same run means running the same
engine against differently wrapped tools. -/
structure Engine where
  script : List ToolCall
  result : GenResult

/-- One entry of type tool_call in the content array of the assistant
message of the unstructured response (part_006 lines 298 to 303). -/
structure ContentEntry where
  toolName : String
  args : Json
  toolResults : Json

/-- The value createAgent returns (part_006 lines 290 to 310): in
structured mode the object with fields toolCalls and structuredOutput
(the latter set to result.text in the source), otherwise the assistant
message plus the top-level toolResults record. -/
inductive Response where
  | structured : List ToolCall → String → Response
  | unstructured : String → List ContentEntry → List (String × Json) → Response

/-- The top-level toolResults record of the unstructured response
(part_006 lines 306 to 309): reduce with Object.assign of
(call.toolName maps to call.args), so a later call overwrites an earlier
call with the same tool name. -/
def assignToolResults (calls : List ToolCall) : List (String × Json) :=
  calls.foldl (fun acc c => setCache acc c.toolName c.args) []

/-- Response formatting of part_006 lines 289 to 310.  Note that both
branches are built only from result.text and result.toolCalls: the values
returned by the tools' executeFn never appear in the response. -/
def mkResponse (requireStructuredOutput : Bool) (res : GenResult) : Response :=
  if requireStructuredOutput then
    Response.structured res.toolCalls res.text
  else
    Response.unstructured res.text
      (res.toolCalls.map (fun tc => ⟨tc.toolName, tc.args, tc.args⟩))
      (assignToolResults res.toolCalls)

/-- The structuredOutput field of a structured response. -/
def Response.structuredOutputOf : Response → Option String
  | .structured _ out => some out
  | .unstructured _ _ _ => none

/-- The content entries of type tool_call of an unstructured response. -/
def Response.entriesOf : Response → List ContentEntry
  | .unstructured _ es _ => es
  | .structured _ _ => []

/-- The top-level toolResults record of an unstructured response. -/
def Response.recordOf : Response → List (String × Json)
  | .unstructured _ _ r => r
  | .structured _ _ => []

/-- The generation engine working through its scripted tool calls.  With a
trace attached the engine sees the wrapped tools (wrappedExecute); with no
trace createAgent hands it the raw tools (part_006 line 228), so every
call invokes the underlying executeFn directly and a rejection propagates
out of generateText. -/
def runScript (trace : Option TraceBehavior)
    (tools : String → Json → Except String Json) :
    List ToolCall → RunState → Except String RunState
  | [], st => .ok st
  | c :: rest, st =>
    match trace with
    | some tb =>
        runScript trace tools rest (wrappedExecute tb c.toolName (tools c.toolName) c.args st).2
    | none =>
        let st1 := { st with execLog := st.execLog ++ [(c.toolName, c.args)] }
        match tools c.toolName c.args with
        | .ok _ => runScript trace tools rest st1
        | .error e => .error e

/-- The body of the function returned by createAgent (part_006 lines 155
to 368), with the generation engine as a black box.  The trace argument is
the trace client in scope after lines 159 to 189: the one supplied in the
configuration, or the one langfuse.trace returned (none when neither is
available, in particular when langfuse.trace itself threw and was
swallowed by safeTraceOperation).  All backend uses in this body are
guarded by safeTraceOperation, so only the scripted tool behaviour can
make the run reject. -/
def runAgent (trace : Option TraceBehavior) (requireStructuredOutput : Bool)
    (agentName : String) (tools : String → Json → Except String Json)
    (engine : Engine) : Except String (Response × RunState) :=
  -- fresh per-run cache and the guarded agent-start span (lines 162, 192 to 211)
  let st0 : RunState := {}
  let st0 := match trace with
    | some tb =>
        if tb.spanThrows then st0
        else { st0 with events := st0.events ++ [TraceEvent.agentStart agentName] }
    | none => st0
  -- generateText over the wrapped or raw tools (lines 213 to 251)
  match runScript trace tools engine.script st0 with
  | .error e => .error e  -- guarded error span, then rethrow (lines 342 to 361)
  | .ok st1 =>
    -- guarded per-tool-call generation logging (lines 253 to 287)
    let st2 := match trace with
      | some tb =>
          if tb.generationThrows then st1
          else { st1 with events := st1.events ++
            engine.result.toolCalls.map (fun tc => TraceEvent.toolGeneration tc.toolName) }
      | none => st1
    let response := mkResponse requireStructuredOutput engine.result
    -- guarded completion span and trace update, one closure (lines 312 to 339)
    let st3 := match trace with
      | some tb =>
          if tb.spanThrows then st2
          else if tb.updateThrows then
            { st2 with events := st2.events ++ [TraceEvent.agentComplete agentName] }
          else
            { st2 with events := st2.events ++
              [TraceEvent.agentComplete agentName, TraceEvent.traceUpdate] }
      | none => st2
    .ok (response, st3)

/-- The accumulator built by orchestrateAgents
(orchestrator.ts lines 58 to 61); absent fields are JavaScript undefined. -/
structure OrchestrationResult where
  action : Option Json := none
  platform : Option Json := none
  references : Option Json := none
  strategy : Option Json := none
  formattedContent : Option Json := none
  publishedContent : Option Json := none

/-- A downstream stage invocation performed by the orchestrator: which
stage agent ran and the content of the single user message it was sent. -/
structure StageCall where
  stage : String
  message : String

/-- A stage agent as the orchestrator consumes it: from the content of the
user message to the first tool result of the streamed run
(stageToolResults?.[0]?.result), or a rejection. -/
def StageAgent : Type := String → Except String (Option Json)

/-- String interpolation of a possibly-undefined JavaScript value inside a
template literal, as used for route.platform in the stage prompts.  The
claims under study never display arrays, so their JavaScript join
rendering is elided. -/
def jsDisplay : Option Json → String
  | none => "undefined"
  | some .null => "null"
  | some (.bool true) => "true"
  | some (.bool false) => "false"
  | some (.num n) => toString n
  | some (.str s) => s
  | some (.arr _) => ""
  | some (.obj _) => "[object Object]"

/-- Fields of a JavaScript object literal whose values may be undefined:
JSON.stringify omits the undefined ones. -/
def objFields (fs : List (String × Option Json)) : List (String × Json) :=
  fs.filterMap (fun f => f.2.map (fun v => (f.1, v)))

/-- The tone the formatter prompt embeds (orchestrator.ts line 117):
result.strategy?.tone with the JavaScript or-default to the string
professional, which also replaces any falsy tone value. -/
def toneOf (strategy : Option Json) : Json :=
  match strategy.bind (fun s => getField s "tone") with
  | some v => if jsTruthy v then v else Json.str "professional"
  | none => Json.str "professional"

/-- The content of the user message sent to the formatter agent
(orchestrator.ts lines 114 to 118). -/
def formatterMessage (userInput : String) (platform : Option Json)
    (tone : Json) : String :=
  Json.stringify (Json.obj (objFields
    [("content", some (Json.str userInput)), ("platform", platform),
     ("tone", some tone)]))

/-- The content of the user message sent to the publisher agent
(orchestrator.ts lines 139 to 143). -/
def publisherMessage (formatted : Option Json) (platform : Option Json) : String :=
  Json.stringify (Json.obj (objFields
    [("content", formatted.bind (fun f => getField f "formattedContent")),
     ("metadata", formatted.bind (fun f => getField f "metadata")),
     ("platform", platform)]))

/-- The fallback route of orchestrator.ts lines 51 to 54. -/
def defaultRoute : Json :=
  Json.obj [("action", Json.str "create_content"), ("platform", Json.str "blog")]

/-- The strict-equality test one switch case performs on route.action. -/
def actionIs (route : Json) (s : String) : Bool :=
  match getField route "action" with
  | some (Json.str a) => a = s
  | _ => false

/-- orchestrateAgents (orchestrator.ts lines 30 to 208), with the five
stage agents as black boxes and the list of performed downstream stage
invocations returned alongside the accumulator.  The route is
routerToolResults?.[0]?.result with the or-fallback to the default route,
so any falsy router result selects the fallback while any truthy one is
used as the route unchanged.  A rejection of any invoked stage agent is
logged and rethrown by the source, hence propagates here. -/
def orchestrateAgents (userInput : String) (router research strategy
    formatter publisher : StageAgent) :
    Except String (OrchestrationResult × List StageCall) :=
  match router userInput with
  | .error e => .error e
  | .ok routerRes =>
    let route := match routerRes with
      | some v => if jsTruthy v then v else defaultRoute
      | none => defaultRoute
    let base : OrchestrationResult :=
      { action := getField route "action", platform := getField route "platform" }
    if actionIs route "create_content" then
      let researchMsg := "Research this topic: " ++ userInput
      match research researchMsg with
      | .error e => .error e
      | .ok researchRes =>
        let strategyMsg := "Create a strategy for " ++
          jsDisplay (getField route "platform") ++ " about: " ++ userInput
        match strategy strategyMsg with
        | .error e => .error e
        | .ok strategyRes =>
          let fMsg := formatterMessage userInput (getField route "platform")
            (toneOf strategyRes)
          match formatter fMsg with
          | .error e => .error e
          | .ok formatterRes =>
            let pMsg := publisherMessage formatterRes (getField route "platform")
            match publisher pMsg with
            | .error e => .error e
            | .ok publisherRes =>
              .ok ({ base with
                      references := researchRes,
                      strategy := strategyRes,
                      formattedContent := formatterRes,
                      publishedContent := publisherRes },
                   [⟨"research", researchMsg⟩, ⟨"strategy", strategyMsg⟩,
                    ⟨"formatter", fMsg⟩, ⟨"publisher", pMsg⟩])
    else if actionIs route "create_strategy" then
      let strategyMsg := "Create a content strategy for " ++
        jsDisplay (getField route "platform")
      match strategy strategyMsg with
      | .error e => .error e
      | .ok strategyRes =>
          .ok ({ base with strategy := strategyRes }, [⟨"strategy", strategyMsg⟩])
    else if actionIs route "manage_content" then
      .ok ({ base with strategy := some (Json.obj
            [("message", Json.str "Content management workflow not implemented yet")]) },
          [])
    else
      .ok (base, [])

/-- A trace backend double none of whose methods throw. -/
def goodBackend : TraceBehavior := {}

/-- A trace backend double every one of whose methods throws. -/
def throwingBackend : TraceBehavior :=
  { traceThrows := true, spanThrows := true, generationThrows := true,
    updateThrows := true, flushThrows := true }

/-- Concrete run fixture: one tool call the engine performs. -/
def c1Args : Json := Json.obj [("q", Json.str "x")]

/-- Concrete tool set whose executeFn always succeeds. -/
def c1Tools : String → Json → Except String Json := fun _ _ => .ok (Json.num 42)

/-- Concrete engine performing one scripted tool call and resolving with a
text and the matching tool-call record. -/
def c1Engine : Engine := ⟨[⟨"search", c1Args⟩], ⟨"done", [⟨"search", c1Args⟩]⟩⟩

/-- A tool whose executeFn always rejects. -/
def failingExec : Json → Except String Json := fun _ => .error "boom"

/-- Arguments for the failing-tool fixture. -/
def c2Args : Json := Json.obj [("city", Json.str "Tokyo")]

/-- The argument object of the final tool call of the structured-mode fixture. -/
def c4Args : Json := Json.obj [("a", Json.num 1), ("b", Json.str "x")]

/-- Structured-mode engine: its final (only) action is a tool call with
arguments c4Args; as toolChoice is required in structured mode, the
resolved text is empty. -/
def c4Engine : Engine := ⟨[⟨"finalAnswer", c4Args⟩], ⟨"", [⟨"finalAnswer", c4Args⟩]⟩⟩

/-- Two argument objects equal as key-value maps but enumerating their
keys in different orders. -/
def c7a : Json := Json.obj [("a", Json.num 1), ("b", Json.num 2)]

/-- The same map as c7a with the keys enumerated in the other order. -/
def c7b : Json := Json.obj [("b", Json.num 2), ("a", Json.num 1)]

/-- Engine fixture for the sink-equivalence claim: the same tool call is
scripted twice. -/
def c8Engine : Engine :=
  ⟨[⟨"search", c1Args⟩, ⟨"search", c1Args⟩], ⟨"ok", []⟩⟩

/-- Stage agent double that rejects when invoked; orchestration results
built over it show the corresponding stage was never reached. -/
def unreachedAgent : StageAgent := fun _ => .error "stage invoked"

/-- A truthy router tool result whose action field is missing. -/
def c5RouterResult : Json := Json.obj [("platform", Json.str "blog")]

/-- A router tool result that routes to the create_content workflow. -/
def c6Route : Json :=
  Json.obj [("action", Json.str "create_content"), ("platform", Json.str "blog")]

/-- A strategy stage tool result whose tone field is present but falsy
(the empty string). -/
def c6Strategy : Json := Json.obj [("tone", Json.str "")]

/-- A route whose action value is a string outside the three workflows. -/
def c10Route : Json :=
  Json.obj [("action", Json.str "update_content"), ("platform", Json.str "blog")]

/-- First tool result of the research stage double of the c5 witness run. -/
def c5rRes : Option Json := some (Json.arr [Json.str "ref"])

/-- First tool result of the strategy stage double of the c5 witness run. -/
def c5sRes : Option Json := some (Json.obj [("tone", Json.str "casual")])

/-- First tool result of the formatter stage double of the c5 witness run. -/
def c5fRes : Option Json := some (Json.obj [("formattedContent", Json.str "body")])

/-- First tool result of the publisher stage double of the c5 witness run. -/
def c5pRes : Option Json := some (Json.str "published")

/-- A strategy result with a present, truthy tone value. -/
def c6TruthyStrategy : Json := Json.obj [("tone", Json.str "casual")]

/-- First-occurrence filter of the engine's scripted tool calls by cache
key, relative to the keys already cached: exactly the calls whose
underlying executeFn the memoized wrapped tools will run. -/
def dedupCalls (seen : List String) : List ToolCall → List ToolCall
  | [] => []
  | c :: rest =>
    if cacheKey c.toolName c.args ∈ seen then dedupCalls seen rest
    else c :: dedupCalls (cacheKey c.toolName c.args :: seen) rest

/-- C1: the claim says that with a trace backend double throwing from every
method, the run completes with the same result as with no sink and every
configured tool's executeFn is still invoked with the same arguments.  On
the code this fails: because tool.execute is awaited inside the
safeTraceOperation closure of wrapToolWithTracing, the backend throwing on
trace.span aborts the closure before tool.execute is reached, so the
wrapped tool resolves with undefined and the underlying executeFn is never
invoked (invocation log empty), while the same run with no sink attached
invokes it once.  The run does complete and the returned response is equal
(it is built only from the engine's text and toolCalls), but the claimed
preservation of executeFn invocations is violated. -/
theorem c1_throwing_backend_suppresses_executeFn :
    (runAgent (some throwingBackend) false "agent" c1Tools c1Engine).map
      (fun p => p.2.execLog) = .ok []
    ∧ (runAgent none false "agent" c1Tools c1Engine).map
      (fun p => p.2.execLog) = .ok [("search", c1Args)]
    ∧ (runAgent (some throwingBackend) false "agent" c1Tools c1Engine).map
      (fun p => p.1)
      = (runAgent none false "agent" c1Tools c1Engine).map (fun p => p.1) :=
  ⟨rfl, rfl, rfl⟩

/-- C2: the claim says a rejection of the underlying executeFn propagates
out of the wrapped execute and is not cached, so an identical later call
re-invokes executeFn.  On the code the error is indeed not cached and the
later call does re-invoke executeFn, but the error does not propagate: the
rethrow inside the tracing closure is caught by safeTraceOperation, so the
wrapped execute resolves normally with undefined instead of rejecting.
First conjunct: the first call resolves with undefined (no rejection
reaches the caller).  Second: nothing was cached.  Third: the second
identical call invoked executeFn again (two log entries). -/
theorem c2_tool_error_swallowed_not_propagated :
    (wrappedExecute goodBackend "weather" failingExec c2Args {}).1 = none
    ∧ (wrappedExecute goodBackend "weather" failingExec c2Args {}).2.cache = []
    ∧ (wrappedExecute goodBackend "weather" failingExec c2Args
        (wrappedExecute goodBackend "weather" failingExec c2Args {}).2).2.execLog
      = [("weather", c2Args), ("weather", c2Args)] :=
  ⟨rfl, rfl, rfl⟩

/-- C4: the claim says that with requireStructuredOutput = true the
returned structuredOutput deep-equals the argument object of the final
tool invocation.  On the code structuredOutput is set to result.text
(part_006 line 292), a string, never the argument object: here the run
returns structuredOutput equal to the empty text while the final tool
call's arguments are the object c4Args, and no string equals that object. -/
theorem c4_structuredOutput_is_text_not_final_args :
    (runAgent (some goodBackend) true "agent" c1Tools c4Engine).map
      (fun p => p.1.structuredOutputOf) = .ok (some "")
    ∧ c4Engine.result.toolCalls.map (fun tc => tc.args) = [c4Args]
    ∧ ∀ s : String, Json.str s ≠ c4Args :=
  ⟨rfl, rfl, fun _ h => Json.noConfusion h⟩

/-- C7 counterexample: the claim says the cache key is a canonical
serialization, so argument objects equal as maps with keys enumerated in
different orders get equal cache keys.  On the code the key is plain
JSON.stringify, which preserves enumeration order: c7a and c7b agree on
both fields (and have the same key set), yet their cache keys differ, and
running the wrapped tool on both arguments executes the underlying tool
twice into two independent cache entries. -/
theorem c7_key_order_changes_cache_key :
    getField c7a "a" = getField c7b "a"
    ∧ getField c7a "b" = getField c7b "b"
    ∧ cacheKey "lookup" c7a ≠ cacheKey "lookup" c7b
    ∧ (wrappedExecute goodBackend "lookup" (c1Tools "lookup") c7b
        (wrappedExecute goodBackend "lookup" (c1Tools "lookup") c7a {}).2).2.execLog
      = [("lookup", c7a), ("lookup", c7b)] :=
  ⟨rfl, rfl, by decide, rfl⟩

/-- C8 counterexample: the claim says a run with no sink behaves
identically to a run with a sink, with the same return value and the same
sequence of executeFn invocations (memoization applying equally).  On the
code tools are only wrapped (and so only memoized and only error-guarded)
when a trace client exists, and both halves of the claim fail.  First
three conjuncts: with succeeding tools, the duplicated scripted call
invokes executeFn twice with no sink but once with a sink, so the
invocation sequences differ.  Last two conjuncts: with a rejecting tool
even the return values diverge — the no-sink run rejects with the tool's
error (raw execute, rethrown at part_006 line 361) while the sink-attached
run swallows it inside the wrapper and completes with a response. -/
theorem c8_no_sink_disables_memoization :
    (runAgent none false "agent" c1Tools c8Engine).map (fun p => p.2.execLog)
      = .ok [("search", c1Args), ("search", c1Args)]
    ∧ (runAgent (some goodBackend) false "agent" c1Tools c8Engine).map
        (fun p => p.2.execLog) = .ok [("search", c1Args)]
    ∧ ([("search", c1Args), ("search", c1Args)] : List (String × Json))
      ≠ [("search", c1Args)]
    ∧ runAgent none false "agent" (fun _ => failingExec) c8Engine
      = .error "boom"
    ∧ (runAgent (some goodBackend) false "agent" (fun _ => failingExec) c8Engine).map
        (fun p => p.1) = .ok (mkResponse false c8Engine.result) := by
  refine ⟨rfl, rfl, fun h => ?_, rfl, rfl⟩
  have hlen := congrArg List.length h
  simp at hlen

/-- C5 counterexample: the claim says a router tool output whose action is
missing or unparseable makes the orchestrator proceed with the fallback
route (action create_content, platform blog).  On the code the or-fallback
of orchestrator.ts line 51 fires only when the whole first tool result is
falsy: a present (truthy) result object with no action field is kept as
the route, every switch case misses, no downstream stage agent runs (all
four would reject here if invoked), and the returned accumulator has an
undefined action instead of create_content.  The run does complete without
throwing. -/
theorem c5_malformed_action_skips_default :
    orchestrateAgents "hello" (fun _ => .ok (some c5RouterResult))
      unreachedAgent unreachedAgent unreachedAgent unreachedAgent
      = .ok ({ action := none, platform := some (Json.str "blog") }, [])
    ∧ (none : Option Json) ≠ some (Json.str "create_content") :=
  ⟨rfl, fun h => Option.noConfusion h⟩

/-- C6 counterexample: the claim says the formatter input contains exactly
the strategy's tone value whenever the strategy result has a tone field.
On the code the tone is taken with the JavaScript or-default
(strategy?.tone or the string professional, orchestrator.ts line 117),
which also replaces any falsy tone value: with tone present but equal to
the empty string, the formatter receives the string professional, and that
message differs from the one carrying the actual tone value. -/
theorem c6_falsy_tone_replaced_by_professional :
    (orchestrateAgents "topic" (fun _ => .ok (some c6Route))
        (fun _ => .ok (some (Json.arr []))) (fun _ => .ok (some c6Strategy))
        (fun _ => .ok (some (Json.str "f"))) (fun _ => .ok (some (Json.str "p")))).map
      (fun p => (p.2.get? 2).map (fun c => c.message))
      = .ok (some (formatterMessage "topic" (some (Json.str "blog"))
          (Json.str "professional")))
    ∧ getField c6Strategy "tone" = some (Json.str "")
    ∧ formatterMessage "topic" (some (Json.str "blog")) (Json.str "professional")
      ≠ formatterMessage "topic" (some (Json.str "blog")) (Json.str "") :=
  ⟨rfl, rfl, by decide⟩

/-- C3: cache idempotence of the wrapped tool.  Within one run (one fresh
shared cache) and under normal operation (the backend's span method does
not throw and the underlying executeFn succeeds on these arguments),
calling the wrapped tool twice with identical arguments executes the
underlying executeFn exactly once: the first call returns the computed
value and logs exactly one invocation, and the second call returns the
same value while changing nothing at all, in particular recording no new
trace span and no second started event. -/
theorem c3_cache_idempotence (tb : TraceBehavior) (toolName : String)
    (f : Json → Except String Json) (args v : Json)
    (htb : tb.spanThrows = false) (hf : f args = .ok v) :
    (wrappedExecute tb toolName f args {}).1 = some v
    ∧ (wrappedExecute tb toolName f args {}).2.execLog = [(toolName, args)]
    ∧ (wrappedExecute tb toolName f args (wrappedExecute tb toolName f args {}).2).1
      = (wrappedExecute tb toolName f args {}).1
    ∧ (wrappedExecute tb toolName f args (wrappedExecute tb toolName f args {}).2).2
      = (wrappedExecute tb toolName f args {}).2 := by
  have h1 : wrappedExecute tb toolName f args {} =
      (some v, ⟨[(cacheKey toolName args, v)], [(toolName, args)],
        [TraceEvent.spanStart toolName args, TraceEvent.spanComplete toolName v]⟩) := by
    simp [wrappedExecute, lookupCache, setCache, htb, hf]
  have h2 : wrappedExecute tb toolName f args
      (⟨[(cacheKey toolName args, v)], [(toolName, args)],
        [TraceEvent.spanStart toolName args, TraceEvent.spanComplete toolName v]⟩ : RunState)
      = (some v, ⟨[(cacheKey toolName args, v)], [(toolName, args)],
        [TraceEvent.spanStart toolName args, TraceEvent.spanComplete toolName v]⟩) := by
    simp [wrappedExecute, lookupCache]
  rw [h1]
  exact ⟨rfl, rfl, by rw [h2], by rw [h2]⟩

/-- Witness for c3_cache_idempotence at a concrete tool: a non-throwing
backend and an executeFn resolving with the number 7. -/
theorem c3_cache_idempotence_witness :
    (wrappedExecute goodBackend "weather" (fun _ => .ok (Json.num 7))
      (Json.obj []) {}).1 = some (Json.num 7)
    ∧ (wrappedExecute goodBackend "weather" (fun _ => .ok (Json.num 7))
      (Json.obj []) {}).2.execLog = [("weather", Json.obj [])]
    ∧ (wrappedExecute goodBackend "weather" (fun _ => .ok (Json.num 7)) (Json.obj [])
        (wrappedExecute goodBackend "weather" (fun _ => .ok (Json.num 7))
          (Json.obj []) {}).2).1
      = (wrappedExecute goodBackend "weather" (fun _ => .ok (Json.num 7))
          (Json.obj []) {}).1
    ∧ (wrappedExecute goodBackend "weather" (fun _ => .ok (Json.num 7)) (Json.obj [])
        (wrappedExecute goodBackend "weather" (fun _ => .ok (Json.num 7))
          (Json.obj []) {}).2).2
      = (wrappedExecute goodBackend "weather" (fun _ => .ok (Json.num 7))
          (Json.obj []) {}).2 :=
  c3_cache_idempotence goodBackend "weather" (fun _ => .ok (Json.num 7))
    (Json.obj []) (Json.num 7) rfl rfl

theorem lookupCache_cons (a : String) (b : Json) (rest : List (String × Json))
    (q : String) :
    lookupCache ((a, b) :: rest) q = if a = q then some b else lookupCache rest q := by
  by_cases h : a = q <;> simp [lookupCache, List.find?_cons, h]

theorem lookupCache_setCache (cache : List (String × Json)) (k : String) (v : Json)
    (q : String) :
    lookupCache (setCache cache k v) q = if q = k then some v else lookupCache cache q := by
  induction cache with
  | nil =>
      by_cases h : q = k
      · subst h; simp [setCache, lookupCache_cons]
      · have h' : ¬ k = q := fun hh => h hh.symm
        simp [setCache, lookupCache_cons, lookupCache, h, h']
  | cons e rest ih =>
      obtain ⟨a, b⟩ := e
      by_cases he : a = k
      · subst he
        by_cases h : q = a
        · subst h; simp [setCache, lookupCache_cons]
        · have h' : ¬ a = q := fun hh => h hh.symm
          simp [setCache, lookupCache_cons, h, h']
      · by_cases h : q = k
        · subst h
          simp [setCache, he, lookupCache_cons, ih]
        · by_cases haq : a = q
          · subst haq
            simp [setCache, he, lookupCache_cons, h, ih]
          · simp [setCache, he, lookupCache_cons, h, haq, ih]

theorem lookup_assign_fold (name : String) :
    ∀ (calls : List ToolCall) (acc : List (String × Json)),
      lookupCache (calls.foldl (fun acc c => setCache acc c.toolName c.args) acc) name
      = ((calls.reverse.find? (fun c => c.toolName = name)).map (fun c => c.args)).or
          (lookupCache acc name)
  | [], acc => by simp
  | c :: rest, acc => by
      have ih := lookup_assign_fold name rest (setCache acc c.toolName c.args)
      simp only [List.foldl_cons, List.reverse_cons, List.find?_append] at *
      rw [ih, lookupCache_setCache]
      cases hf : rest.reverse.find? (fun c => c.toolName = name) with
      | some x => simp [hf]
      | none =>
          by_cases hn : c.toolName = name
          · simp [hf, List.find?_cons, hn]
          · have hn' : ¬ name = c.toolName := fun hh => hn hh.symm
            simp [hf, List.find?_cons, hn, hn']

/-- C9: in unstructured mode the response populates every tool entry with
the arguments object of the tool call, not the value the tool's executeFn
returned.  First conjunct: each tool_call content entry of the assistant
message carries toolResults equal to that call's args (the response is
built from the engine's toolCalls alone, so no executeFn value can appear
in it).  Second conjunct: the top-level toolResults record, keyed by tool
name through the Object.assign fold, maps a name to the args of the last
tool call with that name (and to nothing for names never called). -/
theorem c9_toolResults_carry_args (res : GenResult) :
    (mkResponse false res).entriesOf
      = res.toolCalls.map (fun tc => ⟨tc.toolName, tc.args, tc.args⟩)
    ∧ ∀ name, lookupCache ((mkResponse false res).recordOf) name
      = (res.toolCalls.reverse.find? (fun c => c.toolName = name)).map
          (fun c => c.args) := by
  constructor
  · simp [mkResponse, Response.entriesOf]
  · intro name
    have h := lookup_assign_fold name res.toolCalls []
    simp [mkResponse, Response.recordOf, assignToolResults, lookupCache] at h ⊢
    exact h

/-- C10: when the router result is truthy and carries an action value that
matches none of create_content, create_strategy and manage_content, the
orchestrator falls through every switch case: it returns without throwing
an accumulator holding only the action and platform copied off the route
(references, strategy, formattedContent and publishedContent stay
undefined by construction of the accumulator) and performs no downstream
stage invocation. -/
theorem c10_unknown_action_returns_route_only (userInput : String)
    (router research strategy formatter publisher : StageAgent)
    (routeObj v : Json)
    (hr : router userInput = .ok (some routeObj))
    (ht : jsTruthy routeObj = true)
    (ha : getField routeObj "action" = some v)
    (h1 : v ≠ Json.str "create_content")
    (h2 : v ≠ Json.str "create_strategy")
    (h3 : v ≠ Json.str "manage_content") :
    orchestrateAgents userInput router research strategy formatter publisher
      = .ok ({ action := some v, platform := getField routeObj "platform" }, []) := by
  have hai : ∀ s : String, v ≠ Json.str s → actionIs routeObj s = false := by
    intro s hs
    unfold actionIs
    rw [ha]
    cases v with
    | str a =>
        have haa : a ≠ s := fun hh => hs (by rw [hh])
        simp [haa]
    | null => rfl
    | bool b => rfl
    | num n => rfl
    | arr xs => rfl
    | obj fs => rfl
  simp [orchestrateAgents, hr, ht, hai "create_content" h1,
    hai "create_strategy" h2, hai "manage_content" h3, ha]

/-- Witness for c10_unknown_action_returns_route_only at a concrete route
with action update_content; the four stage doubles would reject if invoked. -/
theorem c10_unknown_action_witness :
    orchestrateAgents "manage my posts" (fun _ => .ok (some c10Route))
      unreachedAgent unreachedAgent unreachedAgent unreachedAgent
      = .ok ({ action := some (Json.str "update_content"),
               platform := some (Json.str "blog") }, []) :=
  c10_unknown_action_returns_route_only "manage my posts" _ _ _ _ _ c10Route
    (Json.str "update_content") rfl rfl rfl
    (by simp) (by simp) (by simp)

/-- C5 amended: the fallback route applies exactly when the router's first
tool result is absent (or falsy).  Part one: with an absent router result
the orchestrator proceeds with the fallback (action create_content,
platform blog), runs the four content stages and completes.  Part two:
with a present (truthy) router result whose action field is missing, the
fallback is not applied: the orchestrator keeps that route, invokes no
stage, and still completes without throwing, returning only the copied
action (undefined) and platform. -/
theorem c5_fallback_only_for_absent_router_result (userInput : String)
    (router research strategy formatter publisher : StageAgent)
    (rRes sRes fRes pRes : Option Json)
    (hres : ∀ m, research m = .ok rRes)
    (hstr : ∀ m, strategy m = .ok sRes)
    (hfmt : ∀ m, formatter m = .ok fRes)
    (hpub : ∀ m, publisher m = .ok pRes) :
    (router userInput = .ok none →
      orchestrateAgents userInput router research strategy formatter publisher
        = .ok ({ action := some (Json.str "create_content"),
                 platform := some (Json.str "blog"),
                 references := rRes, strategy := sRes,
                 formattedContent := fRes, publishedContent := pRes },
               [⟨"research", "Research this topic: " ++ userInput⟩,
                ⟨"strategy", "Create a strategy for " ++ "blog" ++ " about: " ++ userInput⟩,
                ⟨"formatter", formatterMessage userInput (some (Json.str "blog"))
                  (toneOf sRes)⟩,
                ⟨"publisher", publisherMessage fRes (some (Json.str "blog"))⟩]))
    ∧ (∀ r, router userInput = .ok (some r) → jsTruthy r = true →
        getField r "action" = none →
        orchestrateAgents userInput router research strategy formatter publisher
          = .ok ({ action := none, platform := getField r "platform" }, [])) := by
  constructor
  · intro hr
    have h1 : actionIs defaultRoute "create_content" = true := rfl
    have h3 : getField defaultRoute "platform" = some (Json.str "blog") := rfl
    have h2 : getField defaultRoute "action" = some (Json.str "create_content") := rfl
    simp [orchestrateAgents, hr, h1, h2, h3, hres, hstr, hfmt, hpub, jsDisplay]
  · intro r hr htr hact
    have hai : ∀ s : String, actionIs r s = false := by
      intro s; unfold actionIs; rw [hact]
    simp [orchestrateAgents, hr, htr, hai, hact]

/-- Witness for c5_fallback_only_for_absent_router_result: a run whose
router produces no tool result proceeds through the full fallback
create_content pipeline. -/
theorem c5_fallback_witness :
    orchestrateAgents "post" (fun _ => .ok none)
      (fun _ => .ok c5rRes) (fun _ => .ok c5sRes)
      (fun _ => .ok c5fRes) (fun _ => .ok c5pRes)
      = .ok ({ action := some (Json.str "create_content"),
               platform := some (Json.str "blog"),
               references := c5rRes, strategy := c5sRes,
               formattedContent := c5fRes, publishedContent := c5pRes },
             [⟨"research", "Research this topic: " ++ "post"⟩,
              ⟨"strategy", "Create a strategy for " ++ "blog" ++ " about: " ++ "post"⟩,
              ⟨"formatter", formatterMessage "post" (some (Json.str "blog"))
                (toneOf c5sRes)⟩,
              ⟨"publisher", publisherMessage c5fRes (some (Json.str "blog"))⟩]) :=
  (c5_fallback_only_for_absent_router_result "post" _ _ _ _ _
    c5rRes c5sRes c5fRes c5pRes
    (fun _ => rfl) (fun _ => rfl) (fun _ => rfl) (fun _ => rfl)).1 rfl

/-- C6 amended: in a create_content orchestration the formatter stage's
input message is the JSON of content, platform and a tone computed from
the strategy result: it is exactly the strategy's tone value when that
field is present and truthy, and the literal string professional when the
field is absent or holds a falsy value (the or-default of
orchestrator.ts line 117 cannot distinguish a falsy tone from a missing
one). -/
theorem c6_formatter_tone_dependency (userInput : String)
    (router research strategy formatter publisher : StageAgent)
    (route s : Json) (rRes fRes pRes : Option Json)
    (hr : router userInput = .ok (some route))
    (htr : jsTruthy route = true)
    (hact : getField route "action" = some (Json.str "create_content"))
    (hres : ∀ m, research m = .ok rRes)
    (hstr : ∀ m, strategy m = .ok (some s))
    (hfmt : ∀ m, formatter m = .ok fRes)
    (hpub : ∀ m, publisher m = .ok pRes) :
    ((orchestrateAgents userInput router research strategy formatter publisher).map
        (fun p => (p.2.get? 2).map (fun c => c.message)))
      = .ok (some (formatterMessage userInput (getField route "platform")
          (toneOf (some s))))
    ∧ (∀ v, getField s "tone" = some v → jsTruthy v = true → toneOf (some s) = v)
    ∧ (getField s "tone" = none → toneOf (some s) = Json.str "professional")
    ∧ (∀ v, getField s "tone" = some v → jsTruthy v = false →
        toneOf (some s) = Json.str "professional") := by
  refine ⟨?_, ?_, ?_, ?_⟩
  · have hai : actionIs route "create_content" = true := by
      unfold actionIs; rw [hact]; simp
    simp [orchestrateAgents, hr, htr, hai, hres, hstr, hfmt, hpub]
    rfl
  · intro v hv htv
    simp [toneOf, hv, htv]
  · intro hv
    simp [toneOf, hv]
  · intro v hv htv
    simp [toneOf, hv, htv]

/-- Witness for c6_formatter_tone_dependency: in a concrete create_content
run whose strategy result carries the truthy tone casual, the formatter
message embeds exactly that tone value. -/
theorem c6_formatter_tone_witness :
    ((orchestrateAgents "topic" (fun _ => .ok (some c6Route))
        (fun _ => .ok (some (Json.arr []))) (fun _ => .ok (some c6TruthyStrategy))
        (fun _ => .ok (some (Json.str "f")))
        (fun _ => .ok (some (Json.str "p")))).map
      (fun p => (p.2.get? 2).map (fun c => c.message)))
      = .ok (some (formatterMessage "topic" (getField c6Route "platform")
          (toneOf (some c6TruthyStrategy))))
    ∧ toneOf (some c6TruthyStrategy) = Json.str "casual" := by
  have h := c6_formatter_tone_dependency "topic"
    (fun _ => .ok (some c6Route)) (fun _ => .ok (some (Json.arr [])))
    (fun _ => .ok (some c6TruthyStrategy)) (fun _ => .ok (some (Json.str "f")))
    (fun _ => .ok (some (Json.str "p"))) c6Route c6TruthyStrategy
    (some (Json.arr [])) (some (Json.str "f")) (some (Json.str "p"))
    rfl rfl rfl (fun _ => rfl) (fun _ => rfl) (fun _ => rfl) (fun _ => rfl)
  exact ⟨h.1, h.2.1 (Json.str "casual") rfl rfl⟩

theorem cacheKey_data (t : String) (x : Json) :
    (cacheKey t x).data =
      "\x7b".data ++ ((quoteString "toolName").data ++ (":".data
        ++ ((quoteString t).data ++ (",".data ++ ((quoteString "args").data
        ++ (":".data ++ ((Json.stringify x).data ++ "\x7d".data))))))) := by
  simp [cacheKey, Json.stringify, stringifyFields, String.data_append]

/-- C7 amended: the cache key of wrapToolWithTracing is the plain (order
preserving) JSON serialization of the toolName and args pair, so for a
fixed tool two argument objects share one cache key, and hence one cache
entry, exactly when their raw JSON.stringify serializations coincide; in
particular objects equal as maps but enumerating keys in different orders
get distinct keys, while objects with identical serialization share the
entry. -/
theorem c7_cacheKey_eq_iff (t : String) (a b : Json) :
    cacheKey t a = cacheKey t b ↔ Json.stringify a = Json.stringify b := by
  constructor
  · intro h
    have hd := congrArg String.data h
    rw [cacheKey_data, cacheKey_data] at hd
    have h1 := List.append_cancel_left hd
    have h2 := List.append_cancel_left h1
    have h3 := List.append_cancel_left h2
    have h4 := List.append_cancel_left h3
    have h5 := List.append_cancel_left h4
    have h6 := List.append_cancel_left h5
    have h7 := List.append_cancel_left h6
    have h8 := List.append_cancel_right h7
    exact String.ext h8
  · intro h
    have hd : (cacheKey t a).data = (cacheKey t b).data := by
      rw [cacheKey_data, cacheKey_data, h]
    exact String.ext hd

theorem runScript_none_execLog (tools : String → Json → Except String Json) :
    ∀ (script : List ToolCall) (st : RunState),
      (∀ c ∈ script, ∃ v, tools c.toolName c.args = .ok v) →
      runScript none tools script st =
        .ok { st with execLog := st.execLog ++ script.map (fun c => (c.toolName, c.args)) }
  | [], st, _ => by simp [runScript]
  | c :: rest, st, h => by
      obtain ⟨v, hv⟩ := h c (List.mem_cons_self c rest)
      have ih := runScript_none_execLog tools rest
        { st with execLog := st.execLog ++ [(c.toolName, c.args)] }
        (fun c' hc' => h c' (List.mem_cons_of_mem c hc'))
      simp [runScript, hv, ih]

theorem runScript_some_execLog (tb : TraceBehavior) (htb : tb.spanThrows = false)
    (tools : String → Json → Except String Json)
    (hok : ∀ n a, ∃ v, tools n a = .ok v) :
    ∀ (script : List ToolCall) (st : RunState) (seen : List String),
      (∀ k, (lookupCache st.cache k).isSome ↔ k ∈ seen) →
      ∃ st', runScript (some tb) tools script st = .ok st'
        ∧ st'.execLog
          = st.execLog ++ (dedupCalls seen script).map (fun c => (c.toolName, c.args))
  | [], st, seen, _ => ⟨st, by simp [runScript], by simp [dedupCalls]⟩
  | c :: rest, st, seen, hinv => by
      by_cases hmem : cacheKey c.toolName c.args ∈ seen
      · have hsome : (lookupCache st.cache (cacheKey c.toolName c.args)).isSome :=
          (hinv _).mpr hmem
        obtain ⟨v, hv⟩ := Option.isSome_iff_exists.mp hsome
        obtain ⟨st', hrun, hlog⟩ :=
          runScript_some_execLog tb htb tools hok rest st seen hinv
        refine ⟨st', ?_, ?_⟩
        · simpa [runScript, wrappedExecute, hv] using hrun
        · simp [dedupCalls, hmem, hlog]
      · obtain ⟨v, hv⟩ := hok c.toolName c.args
        have hnone : lookupCache st.cache (cacheKey c.toolName c.args) = none := by
          cases hl : lookupCache st.cache (cacheKey c.toolName c.args) with
          | none => rfl
          | some w =>
              exact absurd ((hinv (cacheKey c.toolName c.args)).mp (by simp [hl])) hmem
        have hinv2 : ∀ k,
            (lookupCache (setCache st.cache (cacheKey c.toolName c.args) v) k).isSome
              ↔ k ∈ cacheKey c.toolName c.args :: seen := by
          intro k
          rw [lookupCache_setCache]
          by_cases hk : k = cacheKey c.toolName c.args
          · simp [hk]
          · simp [hk, hinv k]
        obtain ⟨st', hrun, hlog⟩ := runScript_some_execLog tb htb tools hok rest
          { st with
              cache := setCache st.cache (cacheKey c.toolName c.args) v,
              execLog := st.execLog ++ [(c.toolName, c.args)],
              events := (st.events ++ [TraceEvent.spanStart c.toolName c.args])
                ++ [TraceEvent.spanComplete c.toolName v] }
          (cacheKey c.toolName c.args :: seen) hinv2
        refine ⟨st', ?_, ?_⟩
        · simpa [runScript, wrappedExecute, hnone, htb, hv] using hrun
        · simp [dedupCalls, hmem, hlog]

theorem runScript_some_total (tb : TraceBehavior)
    (tools : String → Json → Except String Json) :
    ∀ (script : List ToolCall) (st : RunState),
      ∃ st', runScript (some tb) tools script st = .ok st'
  | [], st => ⟨st, rfl⟩
  | c :: rest, st => by
      obtain ⟨st', h⟩ := runScript_some_total tb tools rest
        (wrappedExecute tb c.toolName (tools c.toolName) c.args st).2
      exact ⟨st', by simp [runScript, h]⟩

/-- C8 amended: runs with and without an instrumentation sink are not
equivalent, because tools are only wrapped when a sink is attached.  Part
one: when every executeFn succeeds, both configurations return the same
value, but the executeFn invocation sequences differ — with no sink every
scripted call invokes executeFn, with a (non-throwing) sink only the
first call per cache key does, so tool-result memoization applies only
with a sink.  Part two: when the engine's first scripted call has a
rejecting executeFn, even the return values diverge — the no-sink run
rejects with the tool's error (raw tool, rethrown by createAgent) while
the sink-attached run swallows the error inside the wrapper (the C2
defect) and completes with the formatted response. -/
theorem c8_sink_changes_invocations_not_result (tb : TraceBehavior)
    (htb : tb.spanThrows = false)
    (tools : String → Json → Except String Json)
    (req : Bool) (agentName : String) (engine : Engine) :
    ((∀ n a, ∃ v, tools n a = .ok v) →
      (runAgent none req agentName tools engine).map (fun p => p.1)
        = .ok (mkResponse req engine.result)
      ∧ (runAgent (some tb) req agentName tools engine).map (fun p => p.1)
        = .ok (mkResponse req engine.result)
      ∧ (runAgent none req agentName tools engine).map (fun p => p.2.execLog)
        = .ok (engine.script.map (fun c => (c.toolName, c.args)))
      ∧ (runAgent (some tb) req agentName tools engine).map (fun p => p.2.execLog)
        = .ok ((dedupCalls [] engine.script).map (fun c => (c.toolName, c.args))))
    ∧ (∀ c rest e, engine.script = c :: rest →
        tools c.toolName c.args = .error e →
        runAgent none req agentName tools engine = .error e
        ∧ (runAgent (some tb) req agentName tools engine).map (fun p => p.1)
          = .ok (mkResponse req engine.result)) := by
  constructor
  · intro hok
    have hN := runScript_none_execLog tools engine.script {}
      (fun c _ => hok c.toolName c.args)
    have hinv0 : ∀ k,
        (lookupCache (RunState.cache { events := [TraceEvent.agentStart agentName] }) k).isSome
          ↔ k ∈ ([] : List String) := by
      intro k; simp [lookupCache]
    obtain ⟨stS, hrunS, hlogS⟩ := runScript_some_execLog tb htb tools hok engine.script
      { events := [TraceEvent.agentStart agentName] } [] hinv0
    refine ⟨?_, ?_, ?_, ?_⟩
    · simp [runAgent, hN, Except.map]
    · simp [runAgent, htb, hrunS]
      cases htg : tb.generationThrows <;> cases htu : tb.updateThrows <;>
        simp [Except.map]
    · simp [runAgent, hN, Except.map]
    · simp [runAgent, htb, hrunS]
      cases htg : tb.generationThrows <;> cases htu : tb.updateThrows <;>
        simp [hlogS, Except.map]
  · intro c rest e hscript hfail
    constructor
    · simp [runAgent, hscript, runScript, hfail]
    · obtain ⟨st1, h1⟩ := runScript_some_total tb tools engine.script
        { events := [TraceEvent.agentStart agentName] }
      simp [runAgent, htb, h1]
      cases htg : tb.generationThrows <;> cases htu : tb.updateThrows <;>
        simp [Except.map]

/-- Witness for c8_sink_changes_invocations_not_result, exercising its
succeeding-tools part at the concrete duplicated-call engine: both
configurations return the same response, the sink-free run logs two
executeFn invocations and the sink-attached run logs one (the rejecting
counterpart is exhibited concretely in the C8 counterexample). -/
theorem c8_sink_equivalence_witness :
    (runAgent none false "agent" c1Tools c8Engine).map (fun p => p.1)
      = .ok (mkResponse false c8Engine.result)
    ∧ (runAgent (some goodBackend) false "agent" c1Tools c8Engine).map (fun p => p.1)
      = .ok (mkResponse false c8Engine.result)
    ∧ (runAgent none false "agent" c1Tools c8Engine).map (fun p => p.2.execLog)
      = .ok (c8Engine.script.map (fun c => (c.toolName, c.args)))
    ∧ (runAgent (some goodBackend) false "agent" c1Tools c8Engine).map
        (fun p => p.2.execLog)
      = .ok ((dedupCalls [] c8Engine.script).map (fun c => (c.toolName, c.args))) :=
  (c8_sink_changes_invocations_not_result goodBackend rfl c1Tools
    false "agent" c8Engine).1 (fun _ _ => ⟨Json.num 42, rfl⟩)
